import Mathlib

/-!
Verification of the FinRobot-IntentChain reasoning-governance core.

This file gives a shallow embedding, in Lean 4, of the parts of the
repository that the specification claims talk about:

* `intentcore/policies/governance.py` — the policy engine
  (`GovernanceEngine.enforce`, `_make_decision`, `_requires_review` and the
  five policy check functions);
* `intentcore/core/extractor.py` — the reasoning extractor and the
  completeness validator (`ReasoningExtractor.extract`,
  `validate_completeness`);
* `intentcore/core/runtime.py` — the decision lifecycle operations
  (`submit_human_decision`, `record_execution`, `_calculate_priority`);
* `intentcore/core/reasoning_chain.py` — the data model.

Modelling conventions, used throughout:

* Python numbers that flow into the governance arithmetic are modelled as
  rationals (`ℚ`).  Every number the embedded code actually computes with is
  an integer (trade sizes parsed from digit strings, limits from the default
  configuration, completeness scores `k/5`), and on those values IEEE-754
  doubles are exact and compare exactly like the rationals, so no floating
  point behaviour is lost.  JSON-parameter numbers are modelled as integers
  (`PyVal.pint`).
* Python exceptions are modelled with `Except PyExn`; an operation that can
  raise returns `Except.error e`, and the `try/except` in
  `GovernanceEngine.enforce` is modelled by matching on that result.
* Python dictionaries are modelled as association lists whose lookup
  returns the first binding of a key.
* `datetime.utcnow()` is modelled by an explicit `now : Nat` argument, and
  `uuid4()` identifiers by plain string fields supplied by the caller.
* Calls into the Python standard library (`str.replace`, `re` searches,
  `json.loads`) are modelled by executable Lean functions defined below;
  the ones whose exact output the settled claims depend on (the
  `[\d,]+` number search and the suffix replacements of the trade-size
  extraction) are modelled exactly, character by character.
-/

namespace IntentCore

/-- A Python exception, as raised by the embedded code.  Only the exception
classes the modelled code can actually raise are represented. -/
inductive PyExn where
  | valueError (msg : String)
  | attributeError (msg : String)
  | typeError (msg : String)
deriving DecidableEq, Repr

/-- The message of an exception, as `str(e)` returns it in Python. -/
def PyExn.msg : PyExn → String
  | .valueError m => m
  | .attributeError m => m
  | .typeError m => m

/-- Decidable equality for modelled fallible results, so that concrete runs
of the embedded operations can be checked by evaluation. -/
instance {ε α : Type} [DecidableEq ε] [DecidableEq α] : DecidableEq (Except ε α) := fun x y =>
  match x, y with
  | .ok a, .ok b =>
    if h : a = b then isTrue (by rw [h]) else isFalse (by intro hh; cases hh; exact h rfl)
  | .error a, .error b =>
    if h : a = b then isTrue (by rw [h]) else isFalse (by intro hh; cases hh; exact h rfl)
  | .ok _, .error _ => isFalse (by intro hh; cases hh)
  | .error _, .ok _ => isFalse (by intro hh; cases hh)

/-- A dynamically typed Python value, as it appears in message `content`
fields and JSON-decoded parameter maps: `None`, a string, or an integer. -/
inductive PyVal where
  | pnone
  | pstr (s : String)
  | pint (n : Int)
deriving DecidableEq, Repr

/-- Python truthiness of a `PyVal`: `None` is falsy, a string is truthy iff
nonempty, an integer is truthy iff nonzero. -/
def pvTruthy : PyVal → Bool
  | .pnone => false
  | .pstr s => !s.isEmpty
  | .pint n => n != 0

/-- Python `str()` of a `PyVal` (`str(None) = "None"`). -/
def pyStr : PyVal → String
  | .pnone => "None"
  | .pstr s => s
  | .pint n => toString n

/-- First binding of a key in an association list, modelling Python
dictionary lookup (`d.get(k)` when the key is present). -/
def alistGet {β : Type} : List (String × β) → String → Option β
  | [], _ => none
  | (k2, v) :: t, k => if k2 = k then some v else alistGet t k

/-- Python `str.replace`, on character lists, driven by a fuel argument that
is always instantiated with the length of the haystack: replaces every
non-overlapping occurrence of `pat`, left to right.  (The embedded code only
replaces nonempty patterns.) -/
def pyReplaceAux (pat rep : List Char) : Nat → List Char → List Char
  | _, [] => []
  | 0, hay => hay
  | Nat.succ fuel, c :: t =>
    if !pat.isEmpty && pat.isPrefixOf (c :: t) then
      rep ++ pyReplaceAux pat rep fuel ((c :: t).drop pat.length)
    else
      c :: pyReplaceAux pat rep fuel t

/-- Python `s.replace(pat, rep)`. -/
def pyReplace (s pat rep : String) : String :=
  ⟨pyReplaceAux pat.data rep.data s.data.length s.data⟩

/-- Python `s.lower()` (the embedded strings are ASCII). -/
def lowerStr (s : String) : String := ⟨s.data.map Char.toLower⟩

/-- Python `s.upper()`. -/
def upperStr (s : String) : String := ⟨s.data.map Char.toUpper⟩

/-- Whether `pat` occurs as a contiguous run inside `hay`: Python
`pat in hay` for strings, on character lists. -/
def containsSub : List Char → List Char → Bool
  | [], pat => pat.isEmpty
  | hay@(_ :: t), pat => pat.isPrefixOf hay || containsSub t pat

/-- Python `pat in s` for strings. -/
def strContains (s pat : String) : Bool := containsSub s.data pat.data

/-- Python `s.strip()`. -/
def pyStrip (s : List Char) : List Char :=
  ((s.dropWhile Char.isWhitespace).reverse.dropWhile Char.isWhitespace).reverse

/-- Python `s[:n]` on a string. -/
def strTake (s : String) (n : Nat) : String := ⟨s.data.take n⟩

/-- Python `sep.join(parts)`. -/
def joinWith (sep : String) : List String → String
  | [] => ""
  | [x] => x
  | x :: xs => x ++ sep ++ joinWith sep xs

/-- A character matched by the regex class `[\d,]`. -/
def isNumChar (c : Char) : Bool := c.isDigit || c == ','

/-- Python `re.search(r"[\d,]+", s)`: the first maximal run of digits and
commas in the string, or `none` when no such character occurs. -/
def firstNumRun : List Char → Option (List Char)
  | [] => none
  | c :: t =>
    if isNumChar c then some ((c :: t).takeWhile isNumChar) else firstNumRun t

/-- Numeric value of a digit string (the argument of Python `float(...)`
after the commas have been removed; on digit strings the conversion is
exact). -/
def digitsToNat (ds : List Char) : Nat :=
  ds.foldl (fun a c => a * 10 + (c.toNat - 48)) 0

/-- Insert thousands separators into a reversed digit list. -/
def commaGroupRev : List Char → Nat → List Char
  | [], _ => []
  | c :: t, k =>
    if k == 3 then ',' :: c :: commaGroupRev t 1 else c :: commaGroupRev t (k + 1)

/-- Python `f"{n:,.0f}"` on a nonnegative integral value (the only values
the embedded code formats): digits grouped in threes by commas. -/
def commaSepNat (n : Nat) : String :=
  ⟨(commaGroupRev (toString n).data.reverse 0).reverse⟩

/-- Python `f"${q:,.0f}"` for the nonnegative integral rationals the
governance messages format (computed on `num`/`den` so that the kernel can
evaluate it). -/
def pyMoneyFmt (q : ℚ) : String := "$" ++ commaSepNat (q.num.toNat / q.den)

/-- Python `f"{q:.1%}"` for nonnegative rationals that are an integral
number of tenths of a percent (every completeness score `k/5` is). -/
def pyPctFmt (q : ℚ) : String :=
  let tenths : Nat := q.num.toNat * 1000 / q.den
  toString (tenths / 10) ++ "." ++ toString (tenths % 10) ++ "%"

/-! ## Data model (`intentcore/core/reasoning_chain.py` and the AutoGen
message shapes consumed by `intentcore/core/extractor.py`) -/

/-- One proposed tool call of an assistant turn.  AutoGen shape:
`id`, `function.name`, `function.arguments`; the argument payload is either
a still-serialized string or an already-decoded key-value map. -/
inductive ArgPayload where
  | raw (s : String)
  | decoded (d : List (String × PyVal))
deriving DecidableEq, Repr

structure ToolCall where
  id : String := ""
  name : String := ""
  arguments : ArgPayload := .raw "\x7b\x7d"
deriving DecidableEq, Repr

/-- One conversation turn (`msg`), an open Python dictionary in the source.
A field holds `none` when the key is absent; a present `content` key may
still hold `None` (`PyVal.pnone`). -/
structure Msg where
  role : Option String := none
  content : Option PyVal := none
  tool_calls : List ToolCall := []
deriving DecidableEq, Repr

/-- Python `msg.get("content", "")`. -/
def getContent (m : Msg) : PyVal := m.content.getD (.pstr "")

/-- The `quantitative_analysis` dictionary built by the extractor:
`amounts`, `percentages`, `metrics`. -/
structure QuantAnalysis where
  amounts : List String := []
  percentages : List String := []
  metrics : List (String × PyVal) := []
deriving DecidableEq, Repr

/-- One entry of the `options` list built by the extractor. -/
structure OptionEntry where
  description : String := ""
  considered : Bool := true
deriving DecidableEq, Repr

/-- The `selected_action` dictionary.  The source builds one of three
dictionary shapes (`tool_call`, `message`, `unknown`); absent keys are
modelled by the falsy defaults `""` / `.pstr ""` / `[]`, which behave
identically under every `get`-and-truthiness test the source performs. -/
structure SelectedAction where
  type : String := ""
  tool_call_id : String := ""
  function : String := ""
  content : PyVal := .pstr ""
  parameters : List (String × PyVal) := []
deriving DecidableEq, Repr

/-- The `ReasoningChain` dataclass.  The learning fields (`pattern_id`,
`template_id`, `confidence_score`) and the creation timestamp are omitted:
no modelled operation reads or writes them. -/
structure ReasoningChain where
  chain_id : String := ""
  agent_id : String := ""
  agent_role : String := ""
  task : String := ""
  conversation_history : List Msg := []
  situation : String := ""
  quantitative_analysis : QuantAnalysis := {}
  options : List OptionEntry := []
  selected_action : SelectedAction := {}
  rationale : String := ""
  risks : List String := []
  completeness_score : ℚ := 0
  missing_components : List String := []
  requires_review : Bool := false
  governance_decision : String := "pending"
  reviewer_id : Option String := none
  review_timestamp : Option Nat := none
  human_decision : Option String := none
  human_rationale : Option String := none
  human_modification : Option (List (String × PyVal)) := none
  execution_status : String := "pending"
  execution_result : Option (List (String × PyVal)) := none
  execution_timestamp : Option Nat := none
deriving DecidableEq, Repr

/-- The `ValidationResult` dataclass. -/
structure ValidationResult where
  is_valid : Bool
  completeness_score : ℚ
  missing_components : List String := []
  warnings : List String := []
  errors : List String := []
deriving DecidableEq, Repr

/-- One policy check result, the dictionary `{"passed": ..., "message": ...}`
returned by every check function (the extra informational keys some checks
attach are not read by `enforce` and are not modelled). -/
structure CheckResult where
  passed : Bool
  message : String
deriving DecidableEq, Repr

/-- The `GovernanceResult` dataclass. -/
structure GovernanceResult where
  decision : String
  requires_review : Bool
  policy_checks : List (String × CheckResult) := []
  violations : List String := []
  warnings : List String := []
  reasoning : String := ""
deriving DecidableEq, Repr

/-! ## Governance configuration (`GovernanceEngine._get_default_config`) -/

structure TradeLimits where
  single_trade_max : ℚ
  review_threshold : ℚ
  auto_approve_max : ℚ
deriving DecidableEq, Repr

structure BlacklistConfig where
  symbols : List String
  actions : List String
deriving DecidableEq, Repr

structure TimingRestrictions where
  pre_earnings_days : ℚ
  high_volatility_vix : ℚ
deriving DecidableEq, Repr

structure RiskLimits where
  max_portfolio_concentration : ℚ
  max_sector_concentration : ℚ
deriving DecidableEq, Repr

structure ReviewRequirements where
  high_value : Bool
  new_patterns : Bool
  low_confidence : Bool
deriving DecidableEq, Repr

structure GovConfig where
  trade_limits : TradeLimits
  blacklist : BlacklistConfig
  timing_restrictions : TimingRestrictions
  risk_limits : RiskLimits
  review_requirements : ReviewRequirements
deriving DecidableEq, Repr

/-- `GovernanceEngine._get_default_config`. -/
def default_config : GovConfig where
  trade_limits := { single_trade_max := 100000000, review_threshold := 50000000, auto_approve_max := 10000000 }
  blacklist := { symbols := [], actions := [] }
  timing_restrictions := { pre_earnings_days := 1, high_volatility_vix := 30 }
  risk_limits := { max_portfolio_concentration := mkRat 1 4, max_sector_concentration := mkRat 2 5 }
  review_requirements := { high_value := true, new_patterns := true, low_confidence := true }

/-! ## Policy engine (`intentcore/policies/governance.py`) -/

/-- The key scan of `_check_trade_size_limit` (and, identically,
`_check_high_value_review`): `for key in ["quantity", "amount", "size",
"value"]: if key in parameters: ... break` — the value under the first of
those keys present in the parameter dictionary. -/
def firstTradeParam (params : List (String × PyVal)) : Option PyVal :=
  match ["quantity", "amount", "size", "value"].find? (fun k => (alistGet params k).isSome) with
  | none => none
  | some k => alistGet params k

/-- The trade-magnitude extraction of `_check_trade_size_limit` and
`_check_high_value_review` (the source repeats these lines verbatim in both
checks).  A string value goes through
`val.replace("$", "").replace("M", "000000").replace("K", "000")`, then
`re.search(r"[\d,]+", ...)`; no match leaves the size undetermined, and a
match is `float`-converted after removing commas (`float("")` raises when
the matched run is all commas).  A numeric value goes through `float(val)`
directly; `float(None)` raises. -/
def extract_trade_size (params : List (String × PyVal)) : Except PyExn (Option ℚ) :=
  match firstTradeParam params with
  | none => .ok none
  | some (.pstr s) =>
    let s1 := pyReplace (pyReplace (pyReplace s "$" "") "M" "000000") "K" "000"
    match firstNumRun s1.data with
    | none => .ok none
    | some run =>
      let digits := run.filter (fun c => c != ',')
      if digits.isEmpty then .error (.valueError "could not convert string to float")
      else .ok (some ((digitsToNat digits : Nat) : ℚ))
  | some (.pint n) => .ok (some (n : ℚ))
  | some .pnone => .error (.typeError "float argument must be a string or a real number, not NoneType")

/-- `GovernanceEngine._check_trade_size_limit`. -/
def check_trade_size_limit (cfg : GovConfig) (chain : ReasoningChain) : Except PyExn CheckResult := do
  let trade_size ← extract_trade_size chain.selected_action.parameters
  match trade_size with
  | none => .ok { passed := true, message := "No trade size found (non-trading action)" }
  | some ts =>
    let max_size := cfg.trade_limits.single_trade_max
    if ts > max_size then
      .ok { passed := false,
            message := "Trade size " ++ pyMoneyFmt ts ++ " exceeds maximum " ++ pyMoneyFmt max_size }
    else
      .ok { passed := true, message := "Trade size " ++ pyMoneyFmt ts ++ " within limits" }

/-- `GovernanceEngine._check_blacklist`.  `parameters.get("symbol", "")` may
hold a non-string, in which case `.upper()` raises `AttributeError`. -/
def check_blacklist (cfg : GovConfig) (chain : ReasoningChain) : Except PyExn CheckResult := do
  let parameters := chain.selected_action.parameters
  let symbol ← match (alistGet parameters "symbol").getD (.pstr "") with
    | .pstr s => Except.ok (upperStr s)
    | .pnone => Except.error (.attributeError "NoneType object has no attribute upper")
    | .pint _ => Except.error (.attributeError "int object has no attribute upper")
  if symbol ∈ cfg.blacklist.symbols then
    .ok { passed := false, message := "Symbol " ++ symbol ++ " is blacklisted" }
  else
    let action_type := chain.selected_action.function
    if action_type ∈ cfg.blacklist.actions then
      .ok { passed := false, message := "Action " ++ action_type ++ " is restricted" }
    else
      .ok { passed := true, message := "No blacklist violations" }

/-- `GovernanceEngine._check_high_value_review`: same magnitude extraction
as the trade-size check, against `trade_limits.review_threshold`; skipped
when `review_requirements.high_value` is off. -/
def check_high_value_review (cfg : GovConfig) (chain : ReasoningChain) : Except PyExn CheckResult := do
  if !cfg.review_requirements.high_value then
    .ok { passed := true, message := "High value review not required by policy" }
  else
    let trade_size ← extract_trade_size chain.selected_action.parameters
    match trade_size with
    | none => .ok { passed := true, message := "Non-trading action" }
    | some ts =>
      let review_threshold := cfg.trade_limits.review_threshold
      if ts > review_threshold then
        .ok { passed := false,
              message := "High-value trade " ++ pyMoneyFmt ts ++
                " requires human review (threshold: " ++ pyMoneyFmt review_threshold ++ ")" }
      else
        .ok { passed := true,
              message := "Trade size " ++ pyMoneyFmt ts ++ " below review threshold" }

/-- `GovernanceEngine._check_pre_earnings`: keyword scan over the lowered
concatenation of situation and task.  (Matching any keyword of the source
list is equivalent to matching `"earnings"` or `"quarterly report"`, but the
full list is kept as written.) -/
def check_pre_earnings (_cfg : GovConfig) (chain : ReasoningChain) : Except PyExn CheckResult :=
  let text := lowerStr (chain.situation ++ " " ++ chain.task)
  let earnings_keywords := ["earnings", "earnings call", "quarterly report", "pre-earnings"]
  if earnings_keywords.any (fun keyword => strContains text keyword) then
    .ok { passed := false,
          message := "Trade occurring before earnings announcement requires additional review" }
  else
    .ok { passed := true, message := "No pre-earnings timing concerns" }

/-- `GovernanceEngine._check_completeness`: the stored completeness score
against the fixed 60% minimum. -/
def check_completeness (_cfg : GovConfig) (chain : ReasoningChain) : Except PyExn CheckResult :=
  let min_completeness : ℚ := mkRat 3 5
  if chain.completeness_score < min_completeness then
    .ok { passed := false,
          message := "Reasoning completeness " ++ pyPctFmt chain.completeness_score ++
            " below minimum " ++ pyPctFmt min_completeness ++ ". Missing: " ++
            joinWith ", " chain.missing_components }
  else
    .ok { passed := true,
          message := "Reasoning completeness " ++ pyPctFmt chain.completeness_score ++
            " is acceptable" }

/-- The `PolicyRule` dataclass: name, severity, auto-block flag and check
function (the `description` field is never read by `enforce` and is kept for
completeness). -/
structure PolicyRule where
  name : String
  description : String
  check : GovConfig → ReasoningChain → Except PyExn CheckResult
  severity : String := "error"
  auto_block : Bool := true

/-- `GovernanceEngine._init_policies`: the fixed, ordered policy list. -/
def policies : List PolicyRule :=
  [ { name := "trade_size_limit", description := "Enforce maximum trade size limits",
      check := check_trade_size_limit, severity := "error", auto_block := true },
    { name := "blacklist_check", description := "Check for blacklisted symbols or actions",
      check := check_blacklist, severity := "error", auto_block := true },
    { name := "high_value_review", description := "Require human review for high-value trades",
      check := check_high_value_review, severity := "warning", auto_block := false },
    { name := "pre_earnings_review", description := "Require review for trades before earnings",
      check := check_pre_earnings, severity := "warning", auto_block := false },
    { name := "completeness_check", description := "Ensure reasoning is sufficiently complete",
      check := check_completeness, severity := "error", auto_block := true } ]

/-- One violation entry collected by `enforce` (the dictionary
`{"policy": ..., "message": ..., "auto_block": ...}`). -/
structure Violation where
  policy : String
  message : String
  auto_block : Bool
deriving DecidableEq, Repr

/-- One warning entry collected by `enforce`. -/
structure WarnEntry where
  policy : String
  message : String
deriving DecidableEq, Repr

/-- The body of the policy loop in `GovernanceEngine.enforce`: run one
check; an exception becomes a warning (`"Policy check failed: ..."`), a
finished check is recorded in `policy_checks` and, if it failed, appended as
a violation (severity `error`) or a warning (severity `warning`). -/
def enforce_step (cfg : GovConfig) (chain : ReasoningChain)
    (acc : List Violation × List WarnEntry × List (String × CheckResult))
    (policy : PolicyRule) : List Violation × List WarnEntry × List (String × CheckResult) :=
  match policy.check cfg chain with
  | .error e =>
    (acc.1, acc.2.1 ++ [{ policy := policy.name, message := "Policy check failed: " ++ e.msg }], acc.2.2)
  | .ok result =>
    let checks := acc.2.2 ++ [(policy.name, result)]
    if result.passed then (acc.1, acc.2.1, checks)
    else if policy.severity == "error" then
      (acc.1 ++ [{ policy := policy.name, message := result.message, auto_block := policy.auto_block }],
       acc.2.1, checks)
    else if policy.severity == "warning" then
      (acc.1, acc.2.1 ++ [{ policy := policy.name, message := result.message }], checks)
    else (acc.1, acc.2.1, checks)

/-- The policy loop of `enforce`, over the fixed policy list. -/
def run_policies (cfg : GovConfig) (chain : ReasoningChain) :
    List Violation × List WarnEntry × List (String × CheckResult) :=
  policies.foldl (enforce_step cfg chain) ([], [], [])

/-- `GovernanceEngine._make_decision`. -/
def make_decision (violations : List Violation) (warnings : List WarnEntry) : String :=
  if violations.any (fun v => v.auto_block) then "rejected"
  else if !violations.isEmpty || !warnings.isEmpty then "review_required"
  else "approved"

/-- `GovernanceEngine._requires_review`. -/
def requires_review_calc (violations : List Violation) (warnings : List WarnEntry)
    (chain : ReasoningChain) : Bool :=
  if !violations.isEmpty || !warnings.isEmpty then true
  else if chain.completeness_score < mkRat 4 5 then true
  else false

/-- `GovernanceEngine._get_decision_reasoning`. -/
def get_decision_reasoning (decision : String) (violations : List Violation)
    (warnings : List WarnEntry) : String :=
  if decision == "rejected" then
    "Rejected due to policy violations: " ++ joinWith ", " (violations.map (fun v => v.message))
  else if decision == "review_required" then
    "Review required: " ++
      joinWith ", " (violations.map (fun v => v.message) ++ warnings.map (fun w => w.message))
  else "All policy checks passed. Approved for execution."

/-- `GovernanceEngine.enforce`. -/
def enforce (cfg : GovConfig) (chain : ReasoningChain) : GovernanceResult :=
  let acc := run_policies cfg chain
  let violations := acc.1
  let warnings := acc.2.1
  let policy_checks := acc.2.2
  let decision := make_decision violations warnings
  { decision := decision
    requires_review := requires_review_calc violations warnings chain
    policy_checks := policy_checks
    violations := violations.map (fun v => v.message)
    warnings := warnings.map (fun w => w.message)
    reasoning := get_decision_reasoning decision violations warnings }

/-! ## Completeness validator (`ReasoningExtractor.validate_completeness`) -/

/-- `ReasoningExtractor.validate_completeness`.  The six component tests are
the Python truthiness tests of the source; the five required components, in
source order, are paired with their outcome, mirroring the `components`
dictionary restricted to the `required` key list; `options` is advisory
only.  The score divides by `len(required) = 5` (`mkRat` is exact rational
division of integers, which agrees with the Python float division here — see
the file header). -/
def validate_completeness (chain : ReasoningChain) : ValidationResult :=
  let situation_ok := !chain.situation.isEmpty && decide (chain.situation.length > 50)
  let quant_ok := !chain.quantitative_analysis.amounts.isEmpty ||
    !chain.quantitative_analysis.metrics.isEmpty
  let risks_ok := !chain.risks.isEmpty
  let rationale_ok := !chain.rationale.isEmpty && decide (chain.rationale.length > 20)
  let action_ok := !chain.selected_action.function.isEmpty || pvTruthy chain.selected_action.content
  let options_ok := !chain.options.isEmpty
  let required := [("situation", situation_ok), ("quantitative_analysis", quant_ok),
    ("risks", risks_ok), ("rationale", rationale_ok), ("action", action_ok)]
  let missing := (required.filter (fun c => !c.2)).map (fun c => c.1)
  let score : ℚ := mkRat ((required.filter (fun c => c.2)).length : Int) 5
  let warnings := if !options_ok then
      ["No alternative options documented (recommended but not required)"]
    else []
  { is_valid := decide (score ≥ mkRat 3 5)
    completeness_score := score
    missing_components := missing
    warnings := warnings }

/-! ## Decision lifecycle (`intentcore/core/runtime.py` with the storage
interface of `intentcore/database/manager.py` modelled as in-memory state) -/

/-- One audit event row (`DatabaseManager.log_event`); the structured
payload is not inspected by any claim and is not modelled. -/
structure AuditEvent where
  event_type : String
  chain_id : Option String := none
  user_id : Option String := none
deriving DecidableEq, Repr

/-- The persistent state behind the storage interface: stored chains (keyed
by identifier), the review queue (chain identifier and priority), and the
append-only audit log. -/
structure DB where
  chains : List (String × ReasoningChain) := []
  review_queue : List (String × String) := []
  events : List AuditEvent := []
deriving DecidableEq, Repr

/-- `DatabaseManager.get_reasoning_chain`. -/
def db_get (db : DB) (chain_id : String) : Option ReasoningChain :=
  alistGet db.chains chain_id

/-- `DatabaseManager.update_reasoning_chain`: replace the stored row with
the given identifier. -/
def db_update (db : DB) (chain_id : String) (chain : ReasoningChain) : DB :=
  { db with chains := db.chains.map (fun kv => if kv.1 = chain_id then (kv.1, chain) else kv) }

/-- `DatabaseManager.log_event`: append one audit event. -/
def log_event (db : DB) (event_type : String) (chain_id user_id : Option String) : DB :=
  { db with events := db.events ++ [{ event_type := event_type, chain_id := chain_id, user_id := user_id }] }

/-- Python truthiness of the optional `modification` dictionary
(`elif modification:`): `None` and the empty map are falsy. -/
def modTruthy : Option (List (String × PyVal)) → Bool
  | none => false
  | some l => !l.isEmpty

/-- `IntentCoreRuntime.submit_human_decision`.  An unknown identifier raises
`ValueError(f"Chain {chain_id} not found")` before any write.  Otherwise the
reviewer fields are set, the governance decision is remapped by the
`if decision == "approved" / elif decision == "rejected" / elif
modification` cascade, the record is persisted and one audit event is
emitted.  `now` models `datetime.utcnow()`. -/
def submit_human_decision (db : DB) (now : Nat) (chain_id reviewer_id decision : String)
    (rationale : Option String) (modification : Option (List (String × PyVal))) :
    Except PyExn (DB × ReasoningChain) :=
  match db_get db chain_id with
  | none => .error (.valueError ("Chain " ++ chain_id ++ " not found"))
  | some chain =>
    let chain := { chain with
      reviewer_id := some reviewer_id
      review_timestamp := some now
      human_decision := some decision
      human_rationale := rationale
      human_modification := modification }
    let chain :=
      if decision = "approved" then { chain with governance_decision := "approved" }
      else if decision = "rejected" then { chain with governance_decision := "rejected" }
      else if modTruthy modification then { chain with governance_decision := "modified" }
      else chain
    let db := db_update db chain_id chain
    let db := log_event db "human_decision" (some chain_id) (some reviewer_id)
    .ok (db, chain)

/-- `IntentCoreRuntime.record_execution`.  An unknown identifier raises
`ValueError` before any write; otherwise the execution fields are set
unconditionally (the source checks nothing about the current governance
decision), the record is persisted and one audit event is emitted. -/
def record_execution (db : DB) (now : Nat) (chain_id status : String)
    (result : Option (List (String × PyVal))) : Except PyExn DB :=
  match db_get db chain_id with
  | none => .error (.valueError ("Chain " ++ chain_id ++ " not found"))
  | some chain =>
    let chain := { chain with
      execution_status := status
      execution_result := result
      execution_timestamp := some now }
    let db := db_update db chain_id chain
    let db := log_event db "execution_completed" (some chain_id) none
    .ok db

/-- The magnitude extraction inside `IntentCoreRuntime._calculate_priority`:
only the `amount` and `value` keys are consulted
(`action.get("amount") or action.get("value", "")`, so a falsy `amount`
falls back to `value`), the string goes through `str(...)` and only the `M`
suffix is expanded (`.replace("M", "000000")`, no `$`, `K` or `B`
handling), then `re.search(r"[\d,]+", ...)` and `float` as in the policy
engine. -/
def priority_magnitude (params : List (String × PyVal)) : Except PyExn (Option ℚ) :=
  if ["amount", "value"].any (fun key => (alistGet params key).isSome) then
    let amount_or := match alistGet params "amount" with
      | some a => if pvTruthy a then a else (alistGet params "value").getD (.pstr "")
      | none => (alistGet params "value").getD (.pstr "")
    let amount_str := pyStr amount_or
    match firstNumRun (pyReplace amount_str "M" "000000").data with
    | none => .ok none
    | some run =>
      let digits := run.filter (fun c => c != ',')
      if digits.isEmpty then .error (.valueError "could not convert string to float")
      else .ok (some ((digitsToNat digits : Nat) : ℚ))
  else .ok none

/-- `IntentCoreRuntime._calculate_priority`: `urgent` on any violation;
else `high` when the extracted amount exceeds 50,000,000 or, failing that,
when the completeness score is below 0.7 (`mkRat 7 10`); else `normal`. -/
def calculate_priority (chain : ReasoningChain) (governance : GovernanceResult) :
    Except PyExn String :=
  if !governance.violations.isEmpty then .ok "urgent"
  else
    match priority_magnitude chain.selected_action.parameters with
    | .error e => .error e
    | .ok (some amount) =>
      if amount > 50000000 then .ok "high"
      else if chain.completeness_score < mkRat 7 10 then .ok "high"
      else .ok "normal"
    | .ok none =>
      if chain.completeness_score < mkRat 7 10 then .ok "high"
      else .ok "normal"

/-! ## Reasoning extractor (`intentcore/core/extractor.py`)

The extractor applies a fixed table of `re` patterns to string message
contents.  Python regex matching on a `str` is total — it never raises — so
the exception behaviour of the extractor (the subject of the safety claim
settled below) is decided entirely by the control flow around the pattern
calls: which contents reach a string operation, and what happens when a
content is not a string.  That control flow is embedded exactly.  The
pattern calls themselves are modelled by the total cue-scanning functions
below, which mirror the source pattern table (the cue alternatives, the
`[:\s]+` separator, the clause terminators and the minimum-length filters);
fine points of Python regex matching (laziness, overlap preference,
character-class terminators) are simplified, and no settled claim depends
on them. -/

/-- Suffixes of the haystack following each non-overlapping occurrence of
`pat`, left to right (fuel is instantiated with the haystack length). -/
def occSuffixes (pat : List Char) : Nat → List Char → List (List Char)
  | _, [] => []
  | 0, _ => []
  | Nat.succ fuel, c :: t =>
    if !pat.isEmpty && pat.isPrefixOf (c :: t) then
      ((c :: t).drop pat.length) :: occSuffixes pat fuel ((c :: t).drop pat.length)
    else occSuffixes pat fuel t

/-- Take characters until any of the terminator strings starts, or the end
of input (the `(.+?)(?:term|$)` clause shape of the source patterns). -/
def takeUntilTerm (terms : List (List Char)) : List Char → List Char
  | [] => []
  | c :: t =>
    if terms.any (fun tm => !tm.isEmpty && tm.isPrefixOf (c :: t)) then []
    else c :: takeUntilTerm terms t

/-- A character matched by the `[:\s]` separator class of the source
patterns. -/
def isCueSep (c : Char) : Bool := c == ':' || c.isWhitespace

/-- Captures after one cue: each occurrence of the cue followed by at least
one `[:\s]` character yields the stripped clause up to a terminator.
Scanning happens on the lowered text (the source passes `re.IGNORECASE`). -/
def captureAfterCue (cue : String) (terms : List String) (hayLower : List Char) :
    List String :=
  (occSuffixes cue.data hayLower.length hayLower).filterMap fun suf =>
    match suf with
    | [] => none
    | c :: rest =>
      if isCueSep c then
        some ⟨pyStrip (takeUntilTerm (terms.map (fun t => t.data)) ((c :: rest).dropWhile isCueSep))⟩
      else none

/-- Captures for a list of cue alternatives over one content string. -/
def cueCaptures (cues : List String) (terms : List String) (content : String) : List String :=
  cues.flatMap (fun cue => captureAfterCue cue terms (lowerStr content).data)

/-- Model of the three `situation` patterns of
`ReasoningExtractor._init_patterns` applied by `re.finditer` to one content
string, with the minimum span length 20 of `_extract_situation`. -/
def situationSpans (content : String) : List String :=
  let p1 := cueCaptures ["current situation", "situation", "context", "currently"]
    ["\n\n"] content
  let p2 := cueCaptures ["as of", "upon"] [",", ".", "\n"] content
  let p3 := if strContains (lowerStr content) "portfolio" then
      cueCaptures ["is", "has", "shows"] ["."] content
    else []
  (p1 ++ p2 ++ p3).filter (fun text => text.length > 20)

/-- The first message loop of `_extract_situation`: non-tool turns with
truthy content go through the situation patterns; a truthy non-string
content reaches `re.finditer` and raises `TypeError`. -/
def situation_scan_messages : List Msg → Except PyExn (List String)
  | [] => .ok []
  | m :: rest =>
    let content := getContent m
    if !pvTruthy content || m.role == some "tool" then situation_scan_messages rest
    else match content with
      | .pstr s => (situation_scan_messages rest).map (fun ps => situationSpans s ++ ps)
      | _ => .error (.typeError "expected string or bytes-like object")

/-- The second message loop of `_extract_situation`: every tool turn has
`msg.get("content", "")` taken and `.lower()` called on it — with no
truthiness guard — so a tool turn whose `content` key holds `None` (or any
non-string) raises `AttributeError` here. -/
def situation_scan_tool_results : List Msg → Except PyExn (List String)
  | [] => .ok []
  | m :: rest =>
    if m.role == some "tool" then
      match getContent m with
      | .pstr s =>
        let keep := ["current", "latest", "as of"].any
          (fun keyword => strContains (lowerStr s) keyword)
        (situation_scan_tool_results rest).map
          (fun ps => (if keep then ["Tool data: " ++ strTake s 200] else []) ++ ps)
      | .pnone => .error (.attributeError "NoneType object has no attribute lower")
      | .pint _ => .error (.attributeError "int object has no attribute lower")
    else situation_scan_tool_results rest

/-- `ReasoningExtractor._extract_situation`: both loops, then the first
three collected parts joined by blank lines. -/
def extract_situation (messages : List Msg) : Except PyExn String := do
  let parts1 ← situation_scan_messages messages
  let parts2 ← situation_scan_tool_results messages
  .ok (joinWith "\n\n" ((parts1 ++ parts2).take 3))

/-- One match of `\$[\d,]+(?:\.\d{2})?[MBK]?` starting exactly here:
the matched text and the rest of the input. -/
def dollarMatchAt (cs : List Char) : Option (List Char × List Char) :=
  match cs with
  | '$' :: rest =>
    let body := rest.takeWhile isNumChar
    if body.isEmpty then none
    else
      let rest2 := rest.drop body.length
      let fracRest : List Char × List Char := match rest2 with
        | '.' :: d1 :: d2 :: r => if d1.isDigit && d2.isDigit then (['.', d1, d2], r) else ([], rest2)
        | _ => ([], rest2)
      let sufRest : List Char × List Char := match fracRest.2 with
        | c :: r => if c == 'M' || c == 'B' || c == 'K' then ([c], r) else ([], fracRest.2)
        | [] => ([], fracRest.2)
      some ('$' :: body ++ fracRest.1 ++ sufRest.1, sufRest.2)
  | _ => none

/-- Model of `re.findall(r"\$[\d,]+(?:\.\d{2})?[MBK]?", content)`:
non-overlapping matches, left to right (fuel is the input length). -/
def findDollarAmounts : Nat → List Char → List String
  | 0, _ => []
  | _, [] => []
  | Nat.succ fuel, c :: t =>
    match dollarMatchAt (c :: t) with
    | some (m, rest) => (⟨m⟩ : String) :: findDollarAmounts fuel rest
    | none => findDollarAmounts fuel t

/-- One match of `\d+\.?\d*%` starting exactly here. -/
def pctMatchAt (cs : List Char) : Option (List Char × List Char) :=
  let ds := cs.takeWhile Char.isDigit
  if ds.isEmpty then none
  else
    let rest := cs.drop ds.length
    let midRest : List Char × List Char := match rest with
      | '.' :: r =>
        let ds2 := r.takeWhile Char.isDigit
        ('.' :: ds2, r.drop ds2.length)
      | _ => ([], rest)
    match midRest.2 with
    | '%' :: r => some (ds ++ midRest.1 ++ ['%'], r)
    | _ =>
      match rest with
      | '%' :: r => some (ds ++ ['%'], r)
      | _ => none

/-- Model of `re.findall(r"\d+\.?\d*%", content)`. -/
def findPercentages : Nat → List Char → List String
  | 0, _ => []
  | _, [] => []
  | Nat.succ fuel, c :: t =>
    match pctMatchAt (c :: t) with
    | some (m, rest) => (⟨m⟩ : String) :: findPercentages fuel rest
    | none => findPercentages fuel t

/-- Python `dict.update`: bindings of `new` override bindings of `old`. -/
def dictMerge (old new : List (String × PyVal)) : List (String × PyVal) :=
  old.filter (fun kv => (alistGet new kv.1).isNone) ++ new

/-- Whitespace skipping for the JSON model. -/
def jsonSkipWs (cs : List Char) : List Char :=
  cs.dropWhile (fun c => c == ' ' || c == '\n' || c == '\t' || c == '\r')

/-- A JSON string token (escape sequences are not modelled). -/
def jsonString (cs : List Char) : Option (String × List Char) :=
  match cs with
  | '"' :: r =>
    let body := r.takeWhile (fun c => c != '"')
    match r.drop body.length with
    | '"' :: r2 => some (⟨body⟩, r2)
    | _ => none
  | _ => none

/-- A JSON integer token. -/
def jsonInt (cs : List Char) : Option (Int × List Char) :=
  match cs with
  | '-' :: r =>
    let ds := r.takeWhile Char.isDigit
    if ds.isEmpty then none else some (-(digitsToNat ds : Int), r.drop ds.length)
  | _ =>
    let ds := cs.takeWhile Char.isDigit
    if ds.isEmpty then none else some ((digitsToNat ds : Nat), cs.drop ds.length)

/-- A JSON value restricted to the shapes the modelled payloads use:
a string, an integer, or `null`. -/
def jsonValue (cs : List Char) : Option (PyVal × List Char) :=
  match jsonString cs with
  | some (s, r) => some (.pstr s, r)
  | none =>
    match cs with
    | 'n' :: 'u' :: 'l' :: 'l' :: r => some (.pnone, r)
    | _ => (jsonInt cs).map (fun nr => (.pint nr.1, nr.2))

/-- The members of a JSON object (fuel is the input length). -/
def jsonMembers : Nat → List Char → Option (List (String × PyVal) × List Char)
  | 0, _ => none
  | Nat.succ fuel, cs =>
    match jsonString (jsonSkipWs cs) with
    | none => none
    | some (k, r) =>
      match jsonSkipWs r with
      | ':' :: r2 =>
        match jsonValue (jsonSkipWs r2) with
        | none => none
        | some (v, r3) =>
          match jsonSkipWs r3 with
          | ',' :: r4 => (jsonMembers fuel r4).map (fun dr => ((k, v) :: dr.1, dr.2))
          | r4 => some ([(k, v)], r4)
      | _ => none

/-- Model of `json.loads` restricted to flat objects with string, integer
or `null` values: the only payload shapes the embedded code decodes.  Any
other input is `none`, standing for the `json.loads` failure (or non-`dict`
result) that the surrounding source swallows or replaces by a fallback. -/
def json_loads_obj (s : String) : Option (List (String × PyVal)) :=
  match jsonSkipWs s.data with
  | '\x7b' :: r =>
    match jsonSkipWs r with
    | '\x7d' :: r2 => if (jsonSkipWs r2).isEmpty then some [] else none
    | r1 =>
      match jsonMembers r1.length r1 with
      | some (d, r2) =>
        match jsonSkipWs r2 with
        | '\x7d' :: r3 => if (jsonSkipWs r3).isEmpty then some d else none
        | _ => none
      | none => none
  | _ => none

/-- `ReasoningExtractor._extract_quantitative_analysis`: every content is
`str(...)`-converted (so this never raises), dollar amounts and percentages
are collected from all turns, and tool-turn contents that decode as JSON
objects are merged into the metrics map. -/
def extract_quantitative_analysis (messages : List Msg) : QuantAnalysis :=
  messages.foldl
    (fun analysis m =>
      let content := pyStr (getContent m)
      let analysis := { analysis with
        amounts := analysis.amounts ++ findDollarAmounts content.data.length content.data
        percentages := analysis.percentages ++ findPercentages content.data.length content.data }
      if m.role == some "tool" then
        match json_loads_obj content with
        | some d => { analysis with metrics := dictMerge analysis.metrics d }
        | none => analysis
      else analysis)
    {}

/-- Model of the two `risks` patterns with the minimum capture length 10 of
`_extract_risks`. -/
def riskSpans (content : String) : List String :=
  (cueCaptures ["risk", "concern", "caution", "warning"] ["."] content ++
    cueCaptures ["potential downside", "potential loss", "potential issue",
      "possible downside", "possible loss", "possible issue"] ["."] content).filter
    (fun text => text.length > 10)

/-- The message loop of `_extract_risks` (same guard and same non-string
failure mode as the first situation loop). -/
def risk_scan : List Msg → Except PyExn (List String)
  | [] => .ok []
  | m :: rest =>
    let content := getContent m
    if !pvTruthy content || m.role == some "tool" then risk_scan rest
    else match content with
      | .pstr s => (risk_scan rest).map (fun ps => riskSpans s ++ ps)
      | _ => .error (.typeError "expected string or bytes-like object")

/-- `ReasoningExtractor._extract_risks`; Python `list(set(risks))` is
modelled as first-occurrence deduplication (the set iteration order is
unspecified and no claim depends on it). -/
def extract_risks (messages : List Msg) : Except PyExn (List String) :=
  (risk_scan messages).map List.dedup

/-- Model of the three `rationale` patterns with the minimum capture length
15 of `_extract_rationale`. -/
def rationaleSpans (content : String) : List String :=
  (cueCaptures ["because", "since", "as", "given that"] ["."] content ++
    cueCaptures ["reason", "rationale"] ["."] content ++
    cueCaptures ["this is", "this will", "to"] ["to", "in order to"] content).filter
    (fun text => text.length > 15)

/-- The message loop of `_extract_rationale`. -/
def rationale_scan : List Msg → Except PyExn (List String)
  | [] => .ok []
  | m :: rest =>
    let content := getContent m
    if !pvTruthy content || m.role == some "tool" then rationale_scan rest
    else match content with
      | .pstr s => (rationale_scan rest).map (fun ps => rationaleSpans s ++ ps)
      | _ => .error (.typeError "expected string or bytes-like object")

/-- `ReasoningExtractor._extract_rationale`: first three captures joined by
single spaces. -/
def extract_rationale (messages : List Msg) : Except PyExn String :=
  (rationale_scan messages).map (fun ps => joinWith " " (ps.take 3))

/-- Model of the two `options` patterns with the minimum capture length 10
of `_extract_options`. -/
def optionSpans (content : String) : List String :=
  (cueCaptures ["alternative", "option", "could also", "another approach"] ["."] content ++
    cueCaptures ["instead", "alternatively"] ["."] content).filter
    (fun text => text.length > 10)

/-- The message loop of `_extract_options`; every capture becomes an option
entry with `considered = True`. -/
def option_scan : List Msg → Except PyExn (List OptionEntry)
  | [] => .ok []
  | m :: rest =>
    let content := getContent m
    if !pvTruthy content || m.role == some "tool" then option_scan rest
    else match content with
      | .pstr s =>
        (option_scan rest).map
          (fun ps => (optionSpans s).map (fun text => { description := text, considered := true }) ++ ps)
      | _ => .error (.typeError "expected string or bytes-like object")

/-- `ReasoningExtractor._extract_options`. -/
def extract_options (messages : List Msg) : Except PyExn (List OptionEntry) :=
  option_scan messages

/-- `ReasoningExtractor._extract_action_from_tool_call`: function name and
identifier are copied, the argument payload is JSON-decoded with the
`{"raw": payload}` fallback of the source `except` branch.  (A payload that
decodes to a non-object is folded into the fallback case; the source would
store the decoded non-dict value, and no settled claim distinguishes the
two.) -/
def extract_action_from_tool_call (tool_call : ToolCall) : SelectedAction :=
  let parameters := match tool_call.arguments with
    | .raw s =>
      match json_loads_obj s with
      | some d => d
      | none => [("raw", .pstr s)]
    | .decoded d => d
  { type := "tool_call", tool_call_id := tool_call.id, function := tool_call.name,
    parameters := parameters }

/-- The reverse scan of `_extract_action_from_messages`: the most recent
assistant turn wins; its last tool call, else its content as a message-type
action; no assistant turn gives the `unknown` action. -/
def extract_action_rev : List Msg → SelectedAction
  | [] => { type := "unknown" }
  | m :: rest =>
    if m.role == some "assistant" then
      match m.tool_calls.getLast? with
      | some tc => extract_action_from_tool_call tc
      | none => { type := "message", content := getContent m }
    else extract_action_rev rest

/-- `ReasoningExtractor._extract_action_from_messages`. -/
def extract_action_from_messages (messages : List Msg) : SelectedAction :=
  extract_action_rev messages.reverse

/-- `ReasoningExtractor.extract`: the per-field extractors in source order
(an exception in any of them propagates out of `extract`), then the
completeness validation folded into the record. -/
def extract (agent_id agent_role task : String) (messages : List Msg)
    (tool_call : Option ToolCall) : Except PyExn ReasoningChain := do
  let situation ← extract_situation messages
  let quantitative_analysis := extract_quantitative_analysis messages
  let risks ← extract_risks messages
  let rationale ← extract_rationale messages
  let options ← extract_options messages
  let selected_action := match tool_call with
    | some tc => extract_action_from_tool_call tc
    | none => extract_action_from_messages messages
  let chain : ReasoningChain :=
    { agent_id := agent_id, agent_role := agent_role, task := task,
      conversation_history := messages, situation := situation,
      quantitative_analysis := quantitative_analysis, risks := risks,
      rationale := rationale, options := options, selected_action := selected_action }
  let validation := validate_completeness chain
  .ok { chain with
        completeness_score := validation.completeness_score,
        missing_components := validation.missing_components }

/-! ## Characterizations of the policy loop, used to state and prove the
governance claims -/

/-- Whether a policy check ran to completion and failed (a check whose
evaluation raised is not a failed check; `enforce` turns it into a warning
without recording a check result). -/
def check_failed (cfg : GovConfig) (chain : ReasoningChain) (p : PolicyRule) : Bool :=
  match p.check cfg chain with
  | .ok r => !r.passed
  | .error _ => false

/-- The violation list the policy loop accumulates, expressed recursively
over the policy list. -/
def policy_violations (cfg : GovConfig) (chain : ReasoningChain) : List PolicyRule → List Violation
  | [] => []
  | p :: ps =>
    (match p.check cfg chain with
      | .error _ => []
      | .ok r =>
        if r.passed then []
        else if p.severity == "error" then
          [{ policy := p.name, message := r.message, auto_block := p.auto_block }]
        else []) ++ policy_violations cfg chain ps

/-- The warning list the policy loop accumulates. -/
def policy_warnings (cfg : GovConfig) (chain : ReasoningChain) : List PolicyRule → List WarnEntry
  | [] => []
  | p :: ps =>
    (match p.check cfg chain with
      | .error e => [{ policy := p.name, message := "Policy check failed: " ++ e.msg }]
      | .ok r =>
        if r.passed then []
        else if p.severity == "error" then []
        else if p.severity == "warning" then [{ policy := p.name, message := r.message }]
        else []) ++ policy_warnings cfg chain ps

/-- The per-policy check map the policy loop accumulates. -/
def policy_checkmap (cfg : GovConfig) (chain : ReasoningChain) :
    List PolicyRule → List (String × CheckResult)
  | [] => []
  | p :: ps =>
    (match p.check cfg chain with
      | .error _ => []
      | .ok r => [(p.name, r)]) ++ policy_checkmap cfg chain ps

/-! ## Concrete records used by the scenario evaluations -/

/-- A reasoning record proposing a $150M trade (the second reference
scenario of the specification), with a complete reasoning score. -/
def chain150M : ReasoningChain :=
  { selected_action :=
      { type := "tool_call", function := "sell_stock",
        parameters := [("symbol", .pstr "NVDA"), ("amount", .pstr "$150M")] },
    completeness_score := 1 }

/-- A record whose trade magnitude carries a `B` (billions) suffix. -/
def chain1B : ReasoningChain :=
  { selected_action :=
      { type := "tool_call", function := "sell_stock",
        parameters := [("amount", .pstr "$1B")] },
    completeness_score := 1 }

/-- A record whose trade magnitude sits under the `quantity` key. -/
def chainQty : ReasoningChain :=
  { selected_action :=
      { type := "tool_call", function := "sell_stock",
        parameters := [("quantity", .pint 60000000)] },
    completeness_score := 1 }

/-- A record with a clean conversation, no trade parameters and a complete
score. -/
def chainClean : ReasoningChain :=
  { selected_action := { type := "message", content := .pstr "Summary only" },
    completeness_score := 1 }

/-- A record with an `amount` parameter above the $50M priority bar. -/
def chainAmt60 : ReasoningChain :=
  { selected_action :=
      { type := "tool_call", function := "sell_stock",
        parameters := [("amount", .pint 60000000)] },
    completeness_score := 1 }

/-- A governance verdict with no violations, as produced for a clean run. -/
def cleanVerdict : GovernanceResult :=
  { decision := "approved", requires_review := false }

/-- A stored record awaiting review, used by the lifecycle scenarios. -/
def sampleChain : ReasoningChain :=
  { chain_id := "c1", agent_id := "agent-1", agent_role := "Market_Analyst",
    task := "rebalance the portfolio",
    situation := "Portfolio is heavily concentrated in a single position at 42% of assets",
    quantitative_analysis := { amounts := ["$90M"] },
    risks := ["concentration risk"],
    rationale := "concentration is dangerously high for the fund",
    selected_action :=
      { type := "tool_call", function := "sell_stock",
        parameters := [("symbol", .pstr "NVDA"), ("amount", .pstr "$90M")] },
    completeness_score := mkRat 4 5,
    requires_review := true,
    governance_decision := "review_required" }

/-- Storage holding exactly the sample record. -/
def sampleDB : DB := { chains := [("c1", sampleChain)] }

/-- A stored record whose governance decision is still `pending`. -/
def pendingChain : ReasoningChain :=
  { chain_id := "p1", agent_id := "agent-2", governance_decision := "pending" }

/-- Storage holding exactly the pending record. -/
def pendingDB : DB := { chains := [("p1", pendingChain)] }

/-- For the refinement comparison of the trade-size claim: the magnitude
normalization as the specification words it — strip currency symbols and
commas, and expand a `K`, `M` or `B` suffix to thousands, millions or
billions.  This definition follows the claim text, not the source; the
source handles only `K` and `M`. -/
def spec_normalize_magnitude (s : String) : Option ℚ :=
  let core := (s.data.filter (fun c => c != '$' && c != ','))
  let split : List Char × Nat := match core.getLast? with
    | some 'K' => (core.dropLast, 1000)
    | some 'M' => (core.dropLast, 1000000)
    | some 'B' => (core.dropLast, 1000000000)
    | _ => (core, 1)
  if !split.1.isEmpty && split.1.all Char.isDigit then
    some ((digitsToNat split.1 * split.2 : Nat) : ℚ)
  else none

/-! ## Helper lemmas -/

theorem alistGet_update {β : Type} (l : List (String × β)) (id : String) (c : β) :
    alistGet (l.map fun kv => if kv.1 = id then (kv.1, c) else kv) id =
      (alistGet l id).map (fun _ => c) := by
  induction l with
  | nil => rfl
  | cons kv t ih =>
    obtain ⟨k2, v⟩ := kv
    simp only [List.map_cons]
    by_cases h : k2 = id
    · have hk : (if (k2, v).1 = id then ((k2, v).1, c) else (k2, v)) = (k2, c) := by simp [h]
      rw [hk]
      simp [alistGet, h]
    · have hk : (if (k2, v).1 = id then ((k2, v).1, c) else (k2, v)) = (k2, v) := by simp [h]
      rw [hk]
      simp [alistGet, h, ih]

theorem db_get_update_self (db : DB) (id : String) (c : ReasoningChain) :
    db_get (db_update db id c) id = (db_get db id).map (fun _ => c) := by
  simp [db_get, db_update, alistGet_update]

theorem db_get_log_event (db : DB) (t : String) (cid uid : Option String) (id : String) :
    db_get (log_event db t cid uid) id = db_get db id := rfl

theorem foldl_enforce_step (cfg : GovConfig) (chain : ReasoningChain) (ps : List PolicyRule) :
    ∀ acc, ps.foldl (enforce_step cfg chain) acc =
      (acc.1 ++ policy_violations cfg chain ps,
        acc.2.1 ++ policy_warnings cfg chain ps,
        acc.2.2 ++ policy_checkmap cfg chain ps) := by
  induction ps with
  | nil =>
    intro acc
    simp [policy_violations, policy_warnings, policy_checkmap]
  | cons p ps ih =>
    intro acc
    rw [List.foldl_cons, ih]
    cases hc : p.check cfg chain with
    | error e =>
      simp [enforce_step, hc, policy_violations, policy_warnings, policy_checkmap,
        List.append_assoc]
    | ok r =>
      cases hr : r.passed
      · by_cases hs : p.severity = "error"
        · simp [enforce_step, hc, hr, hs, policy_violations, policy_warnings, policy_checkmap,
            List.append_assoc]
        · by_cases hw : p.severity = "warning"
          · simp [enforce_step, hc, hr, hs, hw, policy_violations, policy_warnings,
              policy_checkmap, List.append_assoc]
          · simp [enforce_step, hc, hr, hs, hw, policy_violations, policy_warnings,
              policy_checkmap, List.append_assoc]
      · simp [enforce_step, hc, hr, policy_violations, policy_warnings, policy_checkmap,
          List.append_assoc]

theorem run_policies_eq (cfg : GovConfig) (chain : ReasoningChain) :
    run_policies cfg chain =
      (policy_violations cfg chain policies, policy_warnings cfg chain policies,
        policy_checkmap cfg chain policies) := by
  rw [run_policies, foldl_enforce_step]
  simp

theorem enforce_decision_eq (cfg : GovConfig) (chain : ReasoningChain) :
    (enforce cfg chain).decision =
      make_decision (policy_violations cfg chain policies) (policy_warnings cfg chain policies) := by
  simp [enforce, run_policies_eq]

theorem enforce_violations_eq (cfg : GovConfig) (chain : ReasoningChain) :
    (enforce cfg chain).violations =
      (policy_violations cfg chain policies).map (fun v => v.message) := by
  simp [enforce, run_policies_eq]

theorem enforce_warnings_eq (cfg : GovConfig) (chain : ReasoningChain) :
    (enforce cfg chain).warnings =
      (policy_warnings cfg chain policies).map (fun w => w.message) := by
  simp [enforce, run_policies_eq]

theorem enforce_requires_review_eq (cfg : GovConfig) (chain : ReasoningChain) :
    (enforce cfg chain).requires_review =
      requires_review_calc (policy_violations cfg chain policies)
        (policy_warnings cfg chain policies) chain := by
  simp [enforce, run_policies_eq]

theorem make_decision_eq_rejected (vs : List Violation) (ws : List WarnEntry) :
    make_decision vs ws = "rejected" ↔ vs.any (fun v => v.auto_block) = true := by
  unfold make_decision
  cases hany : vs.any (fun v => v.auto_block)
  · simp only [hany, Bool.false_eq_true, if_false]
    constructor
    · intro h
      split_ifs at h <;> exact absurd h (by decide)
    · intro h; cases h
  · simp [hany]

theorem make_decision_eq_approved (vs : List Violation) (ws : List WarnEntry) :
    make_decision vs ws = "approved" ↔ (vs = [] ∧ ws = []) := by
  cases vs with
  | nil =>
    cases ws with
    | nil => simp [make_decision]
    | cons w t =>
      constructor
      · intro h
        unfold make_decision at h
        split_ifs at h with h1 h2
        · exact absurd h (by decide)
        · exact absurd h (by decide)
        · simp [List.isEmpty] at h2
      · rintro ⟨-, h⟩; cases h
  | cons v t =>
    constructor
    · intro h
      unfold make_decision at h
      split_ifs at h with h1 h2
      · exact absurd h (by decide)
      · exact absurd h (by decide)
      · simp [List.isEmpty] at h2
    · rintro ⟨h, -⟩; cases h

theorem make_decision_eq_review (vs : List Violation) (ws : List WarnEntry)
    (hne : vs ≠ [] ∨ ws ≠ []) (hnb : vs.any (fun v => v.auto_block) = false) :
    make_decision vs ws = "review_required" := by
  unfold make_decision
  rw [hnb]
  have h2 : (!vs.isEmpty || !ws.isEmpty) = true := by
    rcases hne with h | h
    · cases vs with
      | nil => exact absurd rfl h
      | cons v t => simp [List.isEmpty]
    · cases ws with
      | nil => exact absurd rfl h
      | cons w t => simp [List.isEmpty]
  simp [h2]

theorem requires_review_calc_iff (vs : List Violation) (ws : List WarnEntry)
    (chain : ReasoningChain) :
    requires_review_calc vs ws chain = true ↔
      (vs ≠ [] ∨ ws ≠ [] ∨ chain.completeness_score < mkRat 4 5) := by
  cases vs with
  | cons v t => simp [requires_review_calc, List.isEmpty]
  | nil =>
    cases ws with
    | cons w t => simp [requires_review_calc, List.isEmpty]
    | nil =>
      by_cases h : chain.completeness_score < mkRat 4 5 <;>
        simp [requires_review_calc, List.isEmpty, h]

theorem policy_violations_any (cfg : GovConfig) (chain : ReasoningChain) :
    ∀ ps : List PolicyRule, (∀ p ∈ ps, p.auto_block = true → p.severity = "error") →
      (policy_violations cfg chain ps).any (fun v => v.auto_block) =
        ps.any (fun p => check_failed cfg chain p && p.auto_block) := by
  intro ps
  induction ps with
  | nil => intro _; rfl
  | cons p ps ih =>
    intro hab
    have hab2 : ∀ q ∈ ps, q.auto_block = true → q.severity = "error" :=
      fun q hq => hab q (List.mem_cons_of_mem _ hq)
    have hp := hab p (List.mem_cons_self _ _)
    cases hc : p.check cfg chain with
    | error e =>
      simp [policy_violations, hc, check_failed, ih hab2]
    | ok r =>
      cases hr : r.passed
      · by_cases hs : p.severity = "error"
        · simp [policy_violations, hc, hr, hs, check_failed, ih hab2]
        · have hb : p.auto_block = false := by
            cases hab3 : p.auto_block
            · rfl
            · exact absurd (hp hab3) hs
          simp [policy_violations, hc, hr, hs, check_failed, hb, ih hab2]
      · simp [policy_violations, hc, hr, check_failed, ih hab2]

theorem policies_autoblock_error :
    ∀ p ∈ policies, p.auto_block = true → p.severity = "error" := by
  intro p hp
  simp only [policies, List.mem_cons, List.not_mem_nil, or_false] at hp
  rcases hp with rfl | rfl | rfl | rfl | rfl <;> simp

/-! ## The claims -/

/-- C1.  For every reasoning record and configuration, the verdict of
`enforce` is `rejected` iff some failed check carries `auto_block = true`;
it is `approved` iff no violation and no warning was recorded (zero checks
failed); and in every remaining case it is `review_required`. -/
theorem governance_decision_rule (cfg : GovConfig) (chain : ReasoningChain) :
    ((enforce cfg chain).decision = "rejected" ↔
      policies.any (fun p => check_failed cfg chain p && p.auto_block) = true) ∧
    ((enforce cfg chain).decision = "approved" ↔
      ((enforce cfg chain).violations = [] ∧ (enforce cfg chain).warnings = [])) ∧
    (((enforce cfg chain).violations ≠ [] ∨ (enforce cfg chain).warnings ≠ []) →
      policies.any (fun p => check_failed cfg chain p && p.auto_block) = false →
      (enforce cfg chain).decision = "review_required") := by
  have hany := policy_violations_any cfg chain policies policies_autoblock_error
  refine ⟨?_, ?_, ?_⟩
  · rw [enforce_decision_eq, make_decision_eq_rejected, hany]
  · rw [enforce_decision_eq, make_decision_eq_approved, enforce_violations_eq,
      enforce_warnings_eq]
    simp [List.map_eq_nil_iff]
  · intro hne hnb
    rw [enforce_violations_eq, enforce_warnings_eq] at hne
    rw [enforce_decision_eq]
    refine make_decision_eq_review _ _ ?_ ?_
    · rcases hne with h | h
      · exact Or.inl (fun hh => h (by simp [hh]))
      · exact Or.inr (fun hh => h (by simp [hh]))
    · rw [hany]; exact hnb

/-- C1 witness: on the concrete $150M record the trade-size check fails
with `auto_block`, so the theorem yields the `rejected` decision. -/
theorem governance_decision_rule_witness :
    (enforce default_config chain150M).decision = "rejected" :=
  (governance_decision_rule default_config chain150M).1.mpr (by decide)

/-- C4.  `requires_review` is true iff the run recorded a violation or a
warning or the completeness score is below 0.8 (`mkRat 4 5`); in
particular a clean run over a record scoring at least 0.8 does not require
review. -/
theorem governance_requires_review_rule (cfg : GovConfig) (chain : ReasoningChain) :
    ((enforce cfg chain).requires_review = true ↔
      ((enforce cfg chain).violations ≠ [] ∨ (enforce cfg chain).warnings ≠ [] ∨
        chain.completeness_score < mkRat 4 5)) ∧
    ((enforce cfg chain).violations = [] → (enforce cfg chain).warnings = [] →
      mkRat 4 5 ≤ chain.completeness_score → (enforce cfg chain).requires_review = false) := by
  constructor
  · rw [enforce_requires_review_eq, requires_review_calc_iff, enforce_violations_eq,
      enforce_warnings_eq]
    constructor
    · rintro (h | h | h)
      · exact Or.inl (by simp [h])
      · exact Or.inr (Or.inl (by simp [h]))
      · exact Or.inr (Or.inr h)
    · rintro (h | h | h)
      · exact Or.inl (fun hh => h (by simp [hh]))
      · exact Or.inr (Or.inl (fun hh => h (by simp [hh])))
      · exact Or.inr (Or.inr h)
  · intro hv hw hs
    rw [enforce_violations_eq] at hv
    rw [enforce_warnings_eq] at hw
    rw [enforce_requires_review_eq]
    cases hcalc : requires_review_calc (policy_violations cfg chain policies)
        (policy_warnings cfg chain policies) chain
    · rfl
    · exfalso
      rcases (requires_review_calc_iff _ _ _).mp hcalc with h | h | h
      · exact h (by simpa using hv)
      · exact h (by simpa using hw)
      · exact absurd hs (by simpa using h.not_le)

/-- C4 witness: the clean record with score 1 gets `requires_review =
false`. -/
theorem governance_requires_review_rule_witness :
    (enforce default_config chainClean).requires_review = false :=
  (governance_requires_review_rule default_config chainClean).2 (by decide) (by decide)
    (by decide)

/-- C3.  The completeness score is exactly (number of satisfied required
components)/5, where the five required components are the situation longer
than 50 characters, nonempty quantitative findings (amounts or metrics), at
least one risk, a rationale longer than 20 characters, and a selected
action carrying a function name or message content; the score lies in
[0, 1]; the advisory options component never enters the missing list, and
its absence only produces the warning. -/
theorem isEmpty_false_of_ne {s : String} (h : s ≠ "") : s.isEmpty = false := by
  cases he : s.isEmpty
  · rfl
  · exact absurd ((String.isEmpty_iff s).mp he) h

theorem validate_completeness_score_spec (chain : ReasoningChain) :
    (validate_completeness chain).completeness_score =
      (((if chain.situation ≠ "" ∧ chain.situation.length > 50 then 1 else 0) +
        (if chain.quantitative_analysis.amounts ≠ [] ∨
            chain.quantitative_analysis.metrics ≠ [] then 1 else 0) +
        (if chain.risks ≠ [] then 1 else 0) +
        (if chain.rationale ≠ "" ∧ chain.rationale.length > 20 then 1 else 0) +
        (if chain.selected_action.function ≠ "" ∨
            pvTruthy chain.selected_action.content = true then 1 else 0) : ℚ)) / 5 ∧
    0 ≤ (validate_completeness chain).completeness_score ∧
    (validate_completeness chain).completeness_score ≤ 1 ∧
    "options" ∉ (validate_completeness chain).missing_components ∧
    (chain.options = [] →
      (validate_completeness chain).warnings =
        ["No alternative options documented (recommended but not required)"]) ∧
    (chain.options ≠ [] → (validate_completeness chain).warnings = []) := by
  have hb1 : (!chain.situation.isEmpty && decide (chain.situation.length > 50)) =
      decide (chain.situation ≠ "" ∧ chain.situation.length > 50) := by
    by_cases h : chain.situation = "" <;> simp [h, String.isEmpty_iff, isEmpty_false_of_ne]
  have hb2 : (!chain.quantitative_analysis.amounts.isEmpty ||
      !chain.quantitative_analysis.metrics.isEmpty) =
      decide (chain.quantitative_analysis.amounts ≠ [] ∨
        chain.quantitative_analysis.metrics ≠ []) := by
    by_cases ha : chain.quantitative_analysis.amounts = [] <;>
      by_cases hm : chain.quantitative_analysis.metrics = [] <;> simp [ha, hm]
  have hb3 : (!chain.risks.isEmpty) = decide (chain.risks ≠ []) := by
    by_cases h : chain.risks = [] <;> simp [h]
  have hb4 : (!chain.rationale.isEmpty && decide (chain.rationale.length > 20)) =
      decide (chain.rationale ≠ "" ∧ chain.rationale.length > 20) := by
    by_cases h : chain.rationale = "" <;> simp [h, String.isEmpty_iff, isEmpty_false_of_ne]
  have hb5 : (!chain.selected_action.function.isEmpty ||
      pvTruthy chain.selected_action.content) =
      decide (chain.selected_action.function ≠ "" ∨
        pvTruthy chain.selected_action.content = true) := by
    by_cases h : chain.selected_action.function = "" <;>
      cases hc : pvTruthy chain.selected_action.content <;>
        simp [h, hc, String.isEmpty_iff, isEmpty_false_of_ne]
  simp only [validate_completeness]
  rw [hb1, hb2, hb3, hb4, hb5]
  by_cases h1 : (chain.situation ≠ "" ∧ chain.situation.length > 50) <;>
    by_cases h2 : (chain.quantitative_analysis.amounts ≠ [] ∨
      chain.quantitative_analysis.metrics ≠ []) <;>
    by_cases h3 : (chain.risks ≠ []) <;>
    by_cases h4 : (chain.rationale ≠ "" ∧ chain.rationale.length > 20) <;>
    by_cases h5 : (chain.selected_action.function ≠ "" ∨
      pvTruthy chain.selected_action.content = true) <;>
    by_cases h6 : chain.options = [] <;>
    simp [h1, h2, h3, h4, h5, h6, Rat.mkRat_eq_div, List.isEmpty_iff] <;>
    norm_num

/-- C3 witness: the empty record has score 0, every required component
missing, options absent only as a warning. -/
theorem validate_completeness_score_spec_witness :
    (validate_completeness {}).warnings =
      ["No alternative options documented (recommended but not required)"] :=
  (validate_completeness_score_spec {}).2.2.2.2.1 rfl

/-- C5 counterexample.  The claim says the trade-size check normalizes `B`
suffixes, so a $1B magnitude (per the claimed normalization, 1,000,000,000,
far above the $100M default maximum) would have to fail the check.  The
code expands only `M` and `K`: on `"$1B"` it reads the magnitude 1, the
check passes, and the whole enforcement run even approves the record. -/
theorem trade_size_limit_ignores_B_suffix :
    check_trade_size_limit default_config chain1B =
      .ok { passed := true, message := "Trade size $1 within limits" } ∧
    spec_normalize_magnitude "$1B" = some 1000000000 ∧
    default_config.trade_limits.single_trade_max = 100000000 ∧
    (enforce default_config chain1B).decision = "approved" := by
  refine ⟨by decide, by decide, rfl, by decide⟩

/-- C5 amended.  The trade-size check takes the first of the keys
`quantity`, `amount`, `size`, `value` present in the action parameters,
strips currency symbols and commas and expands `K` and `M` suffixes (a `B`
suffix is not normalized: only the digits preceding it are read); it fails
exactly when the resulting magnitude exceeds `single_trade_max` (as a
blocking, severity-`error`, `auto_block` rule), passes when no magnitude is
found, and the $150M scenario is rejected with a violation citing the
exceeded maximum. -/
theorem trade_size_limit_spec (cfg : GovConfig) (chain : ReasoningChain) :
    (extract_trade_size chain.selected_action.parameters = .ok none →
      check_trade_size_limit cfg chain =
        .ok { passed := true, message := "No trade size found (non-trading action)" }) ∧
    (∀ ts : ℚ, extract_trade_size chain.selected_action.parameters = .ok (some ts) →
      ts > cfg.trade_limits.single_trade_max →
      check_trade_size_limit cfg chain =
        .ok { passed := false,
              message := "Trade size " ++ pyMoneyFmt ts ++ " exceeds maximum " ++
                pyMoneyFmt cfg.trade_limits.single_trade_max }) ∧
    (∀ ts : ℚ, extract_trade_size chain.selected_action.parameters = .ok (some ts) →
      ¬ ts > cfg.trade_limits.single_trade_max →
      check_trade_size_limit cfg chain =
        .ok { passed := true, message := "Trade size " ++ pyMoneyFmt ts ++ " within limits" }) ∧
    (∀ e, extract_trade_size chain.selected_action.parameters = .error e →
      check_trade_size_limit cfg chain = .error e) ∧
    extract_trade_size [("amount", .pstr "$90M")] = .ok (some 90000000) ∧
    extract_trade_size [("amount", .pstr "$2K")] = .ok (some 2000) ∧
    extract_trade_size [("amount", .pstr "1,500,000")] = .ok (some 1500000) ∧
    extract_trade_size [("quantity", .pint 5), ("amount", .pint 7)] = .ok (some 5) ∧
    extract_trade_size [("note", .pstr "hold")] = .ok none ∧
    (policies.map (fun p => (p.name, p.severity, p.auto_block))).head? =
      some ("trade_size_limit", "error", true) ∧
    (enforce default_config chain150M).decision = "rejected" ∧
    (enforce default_config chain150M).requires_review = true ∧
    "Trade size $150,000,000 exceeds maximum $100,000,000" ∈
      (enforce default_config chain150M).violations := by
  refine ⟨?_, ?_, ?_, ?_, by decide, by decide, by decide, by decide, by decide, rfl,
    by decide, by decide, by decide⟩
  · intro h
    simp [check_trade_size_limit, h, bind, Except.bind]
  · intro ts h hgt
    simp [check_trade_size_limit, h, hgt, bind, Except.bind]
  · intro ts h hgt
    simp [check_trade_size_limit, h, hgt, bind, Except.bind]
  · intro e h
    simp [check_trade_size_limit, h, bind, Except.bind]

/-- C5 witness: the $150M record against the default $100M maximum fails
the check with the exceeded-maximum message. -/
theorem trade_size_limit_spec_witness :
    check_trade_size_limit default_config chain150M =
      .ok { passed := false,
            message := "Trade size $150,000,000 exceeds maximum $100,000,000" } :=
  (trade_size_limit_spec default_config chain150M).2.1 150000000 (by decide) (by decide)

/-- C6 counterexample.  A record whose only trade parameter is
`quantity = 60000000` carries a trade magnitude of $60M (above the $50M
bar; `extract_trade_size` is the magnitude extraction the specification
defines), its verdict has no violation and its completeness score is 1, so
the claim requires priority `high`; the priority routine only consults the
`amount` and `value` keys and returns `normal`. -/
theorem priority_ignores_quantity_key :
    calculate_priority chainQty cleanVerdict = .ok "normal" ∧
    extract_trade_size chainQty.selected_action.parameters = .ok (some 60000000) ∧
    (50000000 : ℚ) < 60000000 ∧
    cleanVerdict.violations = [] ∧
    ¬ chainQty.completeness_score < mkRat 7 10 := by
  refine ⟨by decide, by decide, by decide, rfl, by decide⟩

/-- C6 amended.  Priority is `urgent` exactly when the verdict carries a
violation; otherwise it is `high` when the magnitude found under the
`amount` or `value` key (only those keys; `quantity` and `size` are
ignored, and only the `M` suffix is expanded) exceeds $50,000,000 or the
completeness score is below 0.7, and `normal` otherwise. -/
theorem calculate_priority_spec (chain : ReasoningChain) (governance : GovernanceResult) :
    (calculate_priority chain governance = .ok "urgent" ↔ governance.violations ≠ []) ∧
    (governance.violations = [] →
      ∀ a : ℚ, priority_magnitude chain.selected_action.parameters = .ok (some a) →
        a > 50000000 → calculate_priority chain governance = .ok "high") ∧
    (governance.violations = [] → chain.completeness_score < mkRat 7 10 →
      ∀ r, priority_magnitude chain.selected_action.parameters = .ok r →
        calculate_priority chain governance = .ok "high") ∧
    (governance.violations = [] → ¬ chain.completeness_score < mkRat 7 10 →
      priority_magnitude chain.selected_action.parameters = .ok none →
      calculate_priority chain governance = .ok "normal") ∧
    (governance.violations = [] → ¬ chain.completeness_score < mkRat 7 10 →
      ∀ a : ℚ, priority_magnitude chain.selected_action.parameters = .ok (some a) →
        ¬ a > 50000000 → calculate_priority chain governance = .ok "normal") ∧
    priority_magnitude [("quantity", .pint 60000000)] = .ok none ∧
    priority_magnitude [("size", .pint 60000000)] = .ok none := by
  refine ⟨?_, ?_, ?_, ?_, ?_, by decide, by decide⟩
  · cases hv : governance.violations with
    | cons v t =>
      simp [calculate_priority, hv, List.isEmpty]
    | nil =>
      simp only [hv, ne_eq, not_true_eq_false, iff_false]
      intro h
      rcases hm : priority_magnitude chain.selected_action.parameters with e | r
      · rw [calculate_priority, hv] at h
        simp [hm, List.isEmpty] at h
      · rcases r with - | a
        · rw [calculate_priority, hv] at h
          by_cases hs : chain.completeness_score < mkRat 7 10 <;>
            simp [hm, hs, List.isEmpty] at h
        · rw [calculate_priority, hv] at h
          by_cases hg : a > 50000000
          · simp [hm, hg, List.isEmpty] at h
          · by_cases hs : chain.completeness_score < mkRat 7 10 <;>
              simp [hm, hg, hs, List.isEmpty] at h
  · intro hv a hm hgt
    simp [calculate_priority, hv, hm, hgt, List.isEmpty]
  · intro hv hs r hm
    rcases r with - | a
    · simp [calculate_priority, hv, hm, hs, List.isEmpty]
    · by_cases hg : a > 50000000 <;>
        simp [calculate_priority, hv, hm, hs, hg, List.isEmpty]
  · intro hv hs hm
    simp [calculate_priority, hv, hm, hs, List.isEmpty]
  · intro hv hs a hm hg
    simp [calculate_priority, hv, hm, hs, hg, List.isEmpty]

/-- C6 witness: a clean verdict with `amount = 60000000` gets priority
`high`. -/
theorem calculate_priority_spec_witness :
    calculate_priority chainAmt60 cleanVerdict = .ok "high" :=
  (calculate_priority_spec chainAmt60 cleanVerdict).2.1 rfl 60000000 (by decide) (by decide)

/-- C2 counterexample.  Submitting the human decision `approved` together
with a non-empty modification map leaves the governance decision at
`approved`: the `if decision == "approved"` branch of the source wins
before the `elif modification` branch is ever considered, so the claimed
mapping to `modified` does not happen. -/
theorem submit_approved_with_modification_keeps_approved :
    ((submit_human_decision sampleDB 5 "c1" "alice" "approved" (some "take it")
        (some [("amount", .pstr "$80M")])).toOption.map
      (fun r => r.2.governance_decision)) = some "approved" ∧
    modTruthy (some [("amount", .pstr "$80M")]) = true := by
  exact ⟨rfl, rfl⟩

/-- C2 amended.  For every existing record, `submit_human_decision` maps
`approved` to governance decision `approved` (even when a modification map
is supplied), `rejected` to `rejected`, and any other decision carrying a
non-empty modification map to `modified`; it sets the reviewer identifier,
review timestamp, human decision, rationale and modification, persists the
update, emits one audit event, and leaves all originally extracted fields
(situation, quantitative findings, risks, rationale, options, selected
action) unchanged. -/
theorem submit_human_decision_mapping (db : DB) (now : Nat)
    (chain_id reviewer_id decision : String) (rationale : Option String)
    (modification : Option (List (String × PyVal))) (chain : ReasoningChain)
    (hget : db_get db chain_id = some chain) :
    ∃ db2 chain2,
      submit_human_decision db now chain_id reviewer_id decision rationale modification =
        .ok (db2, chain2) ∧
      (decision = "approved" → chain2.governance_decision = "approved") ∧
      (decision = "rejected" → chain2.governance_decision = "rejected") ∧
      (decision ≠ "approved" → decision ≠ "rejected" → modTruthy modification = true →
        chain2.governance_decision = "modified") ∧
      chain2.reviewer_id = some reviewer_id ∧
      chain2.review_timestamp = some now ∧
      chain2.human_decision = some decision ∧
      chain2.human_rationale = rationale ∧
      chain2.human_modification = modification ∧
      chain2.situation = chain.situation ∧
      chain2.quantitative_analysis = chain.quantitative_analysis ∧
      chain2.risks = chain.risks ∧
      chain2.rationale = chain.rationale ∧
      chain2.options = chain.options ∧
      chain2.selected_action = chain.selected_action ∧
      db_get db2 chain_id = some chain2 ∧
      db2.events = db.events ++
        [{ event_type := "human_decision", chain_id := some chain_id,
           user_id := some reviewer_id }] := by
  have hdb : ∀ c2 : ReasoningChain,
      db_get (log_event (db_update db chain_id c2) "human_decision" (some chain_id)
        (some reviewer_id)) chain_id = some c2 := by
    intro c2
    rw [db_get_log_event, db_get_update_self, hget]
    rfl
  simp only [submit_human_decision, hget]
  by_cases hA : decision = "approved"
  · subst hA
    rw [if_pos rfl]
    refine ⟨_, _, rfl, fun _ => rfl, ?_, ?_, rfl, rfl, rfl, rfl, rfl, rfl, rfl, rfl, rfl,
      rfl, rfl, hdb _, rfl⟩
    · intro h; exact absurd h (by decide)
    · intro h; exact absurd rfl h
  · by_cases hR : decision = "rejected"
    · subst hR
      rw [if_neg hA, if_pos rfl]
      refine ⟨_, _, rfl, ?_, fun _ => rfl, ?_, rfl, rfl, rfl, rfl, rfl, rfl, rfl, rfl, rfl,
        rfl, rfl, hdb _, rfl⟩
      · intro h; exact absurd h (by decide)
      · intro _ h; exact absurd rfl h
    · rw [if_neg hA, if_neg hR]
      by_cases hM : modTruthy modification = true
      · rw [if_pos hM]
        refine ⟨_, _, rfl, ?_, ?_, fun _ _ _ => rfl, rfl, rfl, rfl, rfl, rfl, rfl, rfl,
          rfl, rfl, rfl, rfl, hdb _, rfl⟩
        · intro h; exact absurd h hA
        · intro h; exact absurd h hR
      · rw [if_neg hM]
        refine ⟨_, _, rfl, ?_, ?_, ?_, rfl, rfl, rfl, rfl, rfl, rfl, rfl, rfl, rfl, rfl,
          rfl, hdb _, rfl⟩
        · intro h; exact absurd h hA
        · intro h; exact absurd h hR
        · intro _ _ h; exact absurd h hM

/-- C2 witness: applying the mapping theorem to the stored sample record
with decision `modified` and a non-empty modification map yields governance
decision `modified`. -/
theorem submit_human_decision_mapping_witness :
    ∃ db2 chain2,
      submit_human_decision sampleDB 5 "c1" "alice" "modified" (some "trim the size")
        (some [("amount", .pstr "$70M")]) = .ok (db2, chain2) ∧
      chain2.governance_decision = "modified" := by
  obtain ⟨db2, chain2, hok, _, _, hmod, -⟩ :=
    submit_human_decision_mapping sampleDB 5 "c1" "alice" "modified" (some "trim the size")
      (some [("amount", .pstr "$70M")]) sampleChain rfl
  exact ⟨db2, chain2, hok, hmod (by decide) (by decide) rfl⟩

/-- C7.  On an identifier with no stored record, both
`submit_human_decision` and `record_execution` fail with the same
`ValueError("Chain <id> not found")` raised before any write: no record
update, no queue change and no audit event can occur, since the operations
return the error without producing a new storage state. -/
theorem notfound_no_write (db : DB) (now : Nat)
    (chain_id reviewer_id decision status : String) (rationale : Option String)
    (modification result : Option (List (String × PyVal)))
    (hget : db_get db chain_id = none) :
    submit_human_decision db now chain_id reviewer_id decision rationale modification =
      .error (.valueError ("Chain " ++ chain_id ++ " not found")) ∧
    record_execution db now chain_id status result =
      .error (.valueError ("Chain " ++ chain_id ++ " not found")) := by
  constructor
  · simp [submit_human_decision, hget]
  · simp [record_execution, hget]

/-- C7 witness: on empty storage, both operations fail with the
not-found error. -/
theorem notfound_no_write_witness :
    submit_human_decision {} 0 "missing" "alice" "approved" none none =
      .error (.valueError "Chain missing not found") ∧
    record_execution {} 0 "missing" "completed" none =
      .error (.valueError "Chain missing not found") :=
  notfound_no_write {} 0 "missing" "alice" "approved" "completed" none none none rfl

/-- C8 counterexample.  A stored record whose governance decision is still
`pending` gets its execution fields written by `record_execution`: the
source has no guard on the governance state, contradicting the claim that
execution fields are only written after a terminal `approved` or
`modified` decision. -/
theorem record_execution_writes_on_pending :
    (((record_execution pendingDB 7 "p1" "completed" none).toOption.bind
        (fun db2 => db_get db2 "p1")).map
      (fun c => (c.governance_decision, c.execution_status, c.execution_timestamp))) =
      some ("pending", "completed", some 7) := by
  exact rfl

/-- C8 amended.  `record_execution` writes the execution fields
(status, result, timestamp) on any existing record, whatever its
governance decision; the rest of the record, including the governance
decision, is unchanged, the update is persisted and one audit event is
emitted. -/
theorem record_execution_unconditional (db : DB) (now : Nat) (chain_id status : String)
    (result : Option (List (String × PyVal))) (chain : ReasoningChain)
    (hget : db_get db chain_id = some chain) :
    ∃ db2, record_execution db now chain_id status result = .ok db2 ∧
      db_get db2 chain_id =
        some { chain with
               execution_status := status, execution_result := result,
               execution_timestamp := some now } ∧
      db2.events = db.events ++
        [{ event_type := "execution_completed", chain_id := some chain_id,
           user_id := none }] := by
  simp only [record_execution, hget]
  refine ⟨_, rfl, ?_, rfl⟩
  rw [db_get_log_event, db_get_update_self, hget]
  rfl

/-- C8 amended witness: the pending record gets its execution fields
written. -/
theorem record_execution_unconditional_witness :
    ∃ db2, record_execution pendingDB 7 "p1" "completed" none = .ok db2 ∧
      db_get db2 "p1" =
        some { pendingChain with
               execution_status := "completed", execution_result := none,
               execution_timestamp := some 7 } := by
  obtain ⟨db2, hok, hget, -⟩ :=
    record_execution_unconditional pendingDB 7 "p1" "completed" none pendingChain rfl
  exact ⟨db2, hok, hget⟩

/-- C10.  Submitting a human decision that is neither `approved` nor
`rejected` with a null or empty modification map still sets the reviewer
identifier, review timestamp, human decision and rationale and persists the
record, while the governance decision keeps its prior value. -/
theorem submit_other_decision_frame (db : DB) (now : Nat)
    (chain_id reviewer_id decision : String) (rationale : Option String)
    (modification : Option (List (String × PyVal))) (chain : ReasoningChain)
    (hget : db_get db chain_id = some chain)
    (hA : decision ≠ "approved") (hR : decision ≠ "rejected")
    (hM : modTruthy modification = false) :
    ∃ db2 chain2,
      submit_human_decision db now chain_id reviewer_id decision rationale modification =
        .ok (db2, chain2) ∧
      chain2.reviewer_id = some reviewer_id ∧
      chain2.review_timestamp = some now ∧
      chain2.human_decision = some decision ∧
      chain2.human_rationale = rationale ∧
      chain2.human_modification = modification ∧
      chain2.governance_decision = chain.governance_decision ∧
      db_get db2 chain_id = some chain2 := by
  simp only [submit_human_decision, hget]
  rw [if_neg hA, if_neg hR, if_neg (by simp [hM])]
  refine ⟨_, _, rfl, rfl, rfl, rfl, rfl, rfl, rfl, ?_⟩
  rw [db_get_log_event, db_get_update_self, hget]
  rfl

/-- C10 witness: decision `modified` with no modification map leaves the
sample record in `review_required`. -/
theorem submit_other_decision_frame_witness :
    ∃ db2 chain2,
      submit_human_decision sampleDB 9 "c1" "bob" "modified" none none =
        .ok (db2, chain2) ∧
      chain2.governance_decision = "review_required" := by
  obtain ⟨db2, chain2, hok, -, -, -, -, -, hgov, -⟩ :=
    submit_other_decision_frame sampleDB 9 "c1" "bob" "modified" none none sampleChain rfl
      (by decide) (by decide) rfl
  exact ⟨db2, chain2, hok, hgov⟩

/-- C9 (code bug).  A conversation containing a tool turn whose `content`
key holds `None` makes `extract` raise `AttributeError`: the tool-result
loop of `_extract_situation` calls `content.lower()` without the
truthiness guard its first loop has.  The same turn with a string content
extracts fine, so the crash is specific to the unguarded `None`. -/
theorem extract_raises_on_null_tool_content :
    extract "agent-1" "Market_Analyst" "rebalance the portfolio"
      [{ role := some "tool", content := some PyVal.pnone }] none =
      .error (.attributeError "NoneType object has no attribute lower") ∧
    ((extract "agent-1" "Market_Analyst" "rebalance the portfolio"
      [{ role := some "tool", content := some (.pstr "latest holdings data") }]
      none).toOption.isSome) = true := by
  exact ⟨rfl, rfl⟩

end IntentCore
